import Mathlib

/-!
Shallow embedding of the JsonValue class from src/Json.hpp of the
misanthropique/Json-hpp repository, together with theorems checking the
natural-language specification of the repository against that embedding.

Modelling conventions:
- The anonymous union mNumericValue (long double / intmax_t / uintmax_t) is
  modelled as a raw 64-bit pattern stored in a Nat.  The signed member is
  read back with a two-s-complement interpretation, the unsigned member as
  the pattern itself.  Long-double payloads are kept opaque: the embedding
  treats a floating read as the raw bit pattern, which is adequate here
  because no theorem below constructs or inspects a FLOATING cell.
- The GMP members and code paths are guarded by an INCLUDE_GMP ifdef in the
  source and are excluded from this embedding, matching a build without GMP.
- Moved-from std::string / std::vector / std::map members are modelled as
  emptied, which is the observable behaviour of the mainstream library
  implementations the source targets.
- C++ exceptions are modelled with Except.  An out-of-bounds
  std::vector::operator[] element access, which is undefined behaviour in
  C++, is modelled as a distinguished error value.
-/

namespace JsonHpp

/-- The JsonValue Type enumeration from the source (JsonValue::Type). -/
inductive JsonType where
  | object
  | array
  | string
  | number
  | boolean
  | null
  | undefined
deriving DecidableEq

/-- The JsonValue eNumberType enumeration from the source. -/
inductive eNumberType where
  | FLOATING
  | SIGNED_INTEGRAL
  | UNSIGNED_INTEGRAL
  | MULTIPLE_PRECISION_FLOAT
  | MULTIPLE_PRECISION_INTEGRAL
  | NONE
deriving DecidableEq

/-- The JsonValue class.  The source keeps all payload members in parallel
(mType, mNumericType, the mNumericValue union, mStringValue, mElements,
mMembers, mBoolean); the constructor arguments appear in that order.
mMembers is a std::map, modelled as a key-sorted association list. -/
inductive JsonValue where
  | mk : JsonType → eNumberType → Nat → String → List JsonValue →
      List (String × JsonValue) → Bool → JsonValue

/-- Member mType. -/
def JsonValue.mType : JsonValue → JsonType
  | .mk t _ _ _ _ _ _ => t

/-- Member mNumericType. -/
def JsonValue.mNumericType : JsonValue → eNumberType
  | .mk _ nt _ _ _ _ _ => nt

/-- Member mNumericValue, as the raw 64-bit storage of the union. -/
def JsonValue.mNumericValue : JsonValue → Nat
  | .mk _ _ nv _ _ _ _ => nv

/-- Member mStringValue. -/
def JsonValue.mStringValue : JsonValue → String
  | .mk _ _ _ s _ _ _ => s

/-- Member mElements. -/
def JsonValue.mElements : JsonValue → List JsonValue
  | .mk _ _ _ _ e _ _ => e

/-- Member mMembers. -/
def JsonValue.mMembers : JsonValue → List (String × JsonValue)
  | .mk _ _ _ _ _ m _ => m

/-- Member mBoolean. -/
def JsonValue.mBoolean : JsonValue → Bool
  | .mk _ _ _ _ _ _ b => b

/-- Replace mType, keeping every other member. -/
def JsonValue.setType : JsonValue → JsonType → JsonValue
  | .mk _ nt nv s e m b, t => .mk t nt nv s e m b

/-- Replace mNumericType, keeping every other member. -/
def JsonValue.setNumericType : JsonValue → eNumberType → JsonValue
  | .mk t _ nv s e m b, nt => .mk t nt nv s e m b

/-- Replace mNumericValue, keeping every other member. -/
def JsonValue.setNumericValue : JsonValue → Nat → JsonValue
  | .mk t nt _ s e m b, nv => .mk t nt nv s e m b

/-- Replace mStringValue, keeping every other member. -/
def JsonValue.setStringValue : JsonValue → String → JsonValue
  | .mk t nt nv _ e m b, s => .mk t nt nv s e m b

/-- Replace mElements, keeping every other member. -/
def JsonValue.setElements : JsonValue → List JsonValue → JsonValue
  | .mk t nt nv s _ m b, e => .mk t nt nv s e m b

/-- Replace mMembers, keeping every other member. -/
def JsonValue.setMembers : JsonValue → List (String × JsonValue) → JsonValue
  | .mk t nt nv s e _ b, m => .mk t nt nv s e m b

/-- Replace mBoolean, keeping every other member. -/
def JsonValue.setBoolean : JsonValue → Bool → JsonValue
  | .mk t nt nv s e m _, b => .mk t nt nv s e m b

/-- The empty string, used where the source leaves a std::string default. -/
def emptyString : String := ""

/-- Reading the signedIntegral union member: the stored 64-bit pattern under
the two-s-complement interpretation of intmax_t. -/
def signedRead (bits : Nat) : Int :=
  if bits < 2 ^ 63 then (bits : Int) else (bits : Int) - 2 ^ 64

/-- Storing a signed value into the union: the two-s-complement 64-bit
pattern of the value. -/
def toBits (x : Int) : Nat := (x % 2 ^ 64).toNat

/-- JsonValue::_initPrimitiveVariables: sets mType, clears mBoolean, sets
mNumericType to NONE and memsets the union to zero.  The container members
of a freshly constructed object are default-constructed empty. -/
def initPrimitiveVariables (type : JsonType) : JsonValue :=
  .mk type .NONE 0 emptyString [] [] false

/-- A default-constructed JsonValue: JsonValue(Type::undefined). -/
def defaultJsonValue : JsonValue := initPrimitiveVariables .undefined

/-- JsonValue::clear: resets mType to undefined, clears mStringValue,
mElements, mMembers, resets mBoolean, sets mNumericType to NONE and memsets
the union to zero.  (The GMP release calls are compiled out.) -/
def JsonValue.clear (_ : JsonValue) : JsonValue :=
  .mk .undefined .NONE 0 emptyString [] [] false

mutual

/-- JsonValue::operator==: false on differing mType, then a switch on mType.
The number case switches on the left operand mNumericType only and compares
the union member selected by it; the MULTIPLE_PRECISION and NONE cases fall
through to return false, as do two undefined values (no switch case). -/
def jsonEq : JsonValue → JsonValue → Bool
  | .mk t1 nt1 nv1 s1 e1 m1 b1, .mk t2 _nt2 nv2 s2 e2 m2 b2 =>
    if t1 ≠ t2 then false
    else
      match t1 with
      | .object => membersEq m1 m2
      | .array => elementsEq e1 e2
      | .string => s1 == s2
      | .number =>
        match nt1 with
        | .FLOATING => nv1 == nv2
        | .SIGNED_INTEGRAL => signedRead nv1 == signedRead nv2
        | .UNSIGNED_INTEGRAL => nv1 == nv2
        | _ => false
      | .boolean => b1 == b2
      | .null => true
      | .undefined => false

/-- std::vector equality on mElements: equal lengths and element-wise
JsonValue::operator==. -/
def elementsEq : List JsonValue → List JsonValue → Bool
  | [], [] => true
  | a :: as, c :: cs => jsonEq a c && elementsEq as cs
  | _, _ => false

/-- std::map equality on mMembers: equal sizes and pairwise (key, value)
equality in key order. -/
def membersEq : List (String × JsonValue) → List (String × JsonValue) → Bool
  | [], [] => true
  | (k1, v1) :: as, (k2, v2) :: cs => k1 == k2 && jsonEq v1 v2 && membersEq as cs
  | _, _ => false

end

/-- std::map::find on mMembers: keyed lookup. -/
def memFind : List (String × JsonValue) → String → Option JsonValue
  | [], _ => none
  | (k1, v1) :: rest, k => if k = k1 then some v1 else memFind rest k

/-- std::map::operator[] on mMembers: returns the mapped value for the key,
inserting a default-constructed JsonValue at the sorted position when the
key is absent.  Returns the updated map and the mapped value. -/
def mapIndex : List (String × JsonValue) → String → List (String × JsonValue) × JsonValue
  | [], k => ([(k, defaultJsonValue)], defaultJsonValue)
  | (k1, v1) :: rest, k =>
    if k < k1 then ((k, defaultJsonValue) :: (k1, v1) :: rest, defaultJsonValue)
    else if k = k1 then ((k1, v1) :: rest, v1)
    else
      let r := mapIndex rest k
      ((k1, v1) :: r.1, r.2)

/-- Insert-or-overwrite on mMembers at the sorted position:
the effect of mMembers[key] = value in the source parser. -/
def mapInsertAssign : List (String × JsonValue) → String → JsonValue →
    List (String × JsonValue)
  | [], k, v => [(k, v)]
  | (k1, v1) :: rest, k, v =>
    if k < k1 then (k, v) :: (k1, v1) :: rest
    else if k = k1 then (k1, v) :: rest
    else (k1, v1) :: mapInsertAssign rest k v

/-- Errors thrown by the JsonValue accessors.  typeMismatch models the
std::runtime_error thrown on a wrong-kind operation, outOfRange the
std::out_of_range, invalidArgument the std::invalid_argument on a null key.
undefinedBehavior marks an out-of-bounds std::vector element access, which
the C++ leaves undefined. -/
inductive JsonErr where
  | typeMismatch
  | outOfRange
  | invalidArgument
  | undefinedBehavior
deriving DecidableEq

/-- JsonValue::hasMember: keyed lookup when mType is object, false for any
other type (not an error). -/
def JsonValue.hasMember (v : JsonValue) (key : String) : Bool :=
  if v.mType = .object then (memFind v.mMembers key).isSome else false

/-- JsonValue::is. -/
def JsonValue.isType (v : JsonValue) (type : JsonType) : Bool := v.mType == type

/-- JsonValue::keys: for an object, the source constructs
std::vector memberKeys with mMembers.size() default (empty) strings and
then std::transform with a std::back_inserter appends one key per member
after them, so the returned vector holds size() empty strings followed by
the keys in ascending key order.  Any other type throws a runtime error. -/
def JsonValue.keys (v : JsonValue) : Except JsonErr (List String) :=
  if v.mType = .object then
    .ok (List.replicate v.mMembers.length emptyString ++ v.mMembers.map Prod.fst)
  else .error .typeMismatch

/-- JsonValue::size: member count for object, element count for array,
character length for string, a runtime error for every other type. -/
def JsonValue.size (v : JsonValue) : Except JsonErr Nat :=
  match v.mType with
  | .object => .ok v.mMembers.length
  | .array => .ok v.mElements.length
  | .string => .ok v.mStringValue.length
  | _ => .error .typeMismatch

/-- Object assignment operator: clear, set mType to object, assign
mMembers. -/
def JsonValue.assignObject (v : JsonValue) (object : List (String × JsonValue)) :
    JsonValue :=
  ((v.clear).setType .object).setMembers object

/-- Array assignment operator: clear, set mType to array, assign
mElements. -/
def JsonValue.assignArray (v : JsonValue) (array : List JsonValue) : JsonValue :=
  ((v.clear).setType .array).setElements array

/-- String assignment operator: clear, set mType to string, assign
mStringValue. -/
def JsonValue.assignString (v : JsonValue) (string : String) : JsonValue :=
  ((v.clear).setType .string).setStringValue string

/-- Arithmetic assignment operator instantiated at a signed integral type:
clear, set mType to number, mNumericType to SIGNED_INTEGRAL and store the
value in the union. -/
def JsonValue.assignSigned (v : JsonValue) (x : Int) : JsonValue :=
  ((((v.clear).setType .number).setNumericType .SIGNED_INTEGRAL).setNumericValue
    (toBits x))

/-- Arithmetic assignment operator instantiated at an unsigned integral
type: clear, set mType to number, mNumericType to UNSIGNED_INTEGRAL and
store the value in the union. -/
def JsonValue.assignUnsigned (v : JsonValue) (x : Nat) : JsonValue :=
  ((((v.clear).setType .number).setNumericType .UNSIGNED_INTEGRAL).setNumericValue
    (x % 2 ^ 64))

/-- Arithmetic assignment operator instantiated at a floating-point type:
clear, set mType to number, mNumericType to FLOATING and store the long
double, kept here as its raw bit pattern. -/
def JsonValue.assignFloating (v : JsonValue) (bits : Nat) : JsonValue :=
  ((((v.clear).setType .number).setNumericType .FLOATING).setNumericValue bits)

/-- Boolean assignment operator: clear, set mType to boolean, assign
mBoolean. -/
def JsonValue.assignBool (v : JsonValue) (boolean : Bool) : JsonValue :=
  ((v.clear).setType .boolean).setBoolean boolean

/-- Null assignment operator: clear, set mType to null. -/
def JsonValue.assignNull (v : JsonValue) : JsonValue :=
  (v.clear).setType .null

/-- JsonValue::_copyAssign: copies mType, mStringValue, mElements, mMembers,
mBoolean and mNumericType from the other value; the union is memcpy-ed for
the FLOATING / SIGNED_INTEGRAL / UNSIGNED_INTEGRAL resolutions and memset
to zero otherwise (the GMP cases are compiled out). -/
def copyAssignFields (other : JsonValue) : JsonValue :=
  match other with
  | .mk t nt nv s e m b =>
    .mk t nt
      (match nt with
        | .FLOATING => nv
        | .SIGNED_INTEGRAL => nv
        | .UNSIGNED_INTEGRAL => nv
        | _ => 0)
      s e m b

/-- Copy assignment operator: a no-op when the two values compare equal,
otherwise clear followed by _copyAssign (which overwrites every member). -/
def JsonValue.assignCopy (v other : JsonValue) : JsonValue :=
  if jsonEq v other then v else copyAssignFields other

/-- JsonValue::_moveAssign: this takes every member of other (the union is
memcpy-ed whole), and other is left with mType undefined, moved-from empty
containers, mBoolean false, mNumericType NONE and a zeroed union.  The
result pairs the new destination with the new source. -/
def moveAssignFields (other : JsonValue) : JsonValue × JsonValue :=
  match other with
  | .mk t nt nv s e m b =>
    (.mk t nt nv s e m b, .mk .undefined .NONE 0 emptyString [] [] false)

/-- The move constructor: _moveAssign into a fresh value. -/
def moveConstruct (other : JsonValue) : JsonValue × JsonValue :=
  moveAssignFields other

/-- Move assignment operator: a no-op on both operands when the two values
compare equal, otherwise clear followed by _moveAssign. -/
def JsonValue.assignMove (v other : JsonValue) : JsonValue × JsonValue :=
  if jsonEq v other then (v, other) else moveAssignFields other

/-- std::vector::resize on mElements: truncates when the new size is not
larger, otherwise appends default-constructed (undefined) values. -/
def resizeTo (l : List JsonValue) (n : Nat) : List JsonValue :=
  if n ≤ l.length then l.take n
  else l ++ List.replicate (n - l.length) defaultJsonValue

/-- Mutable JsonValue::operator[](IntegralType) at a signed index: throws on
a non-array type; a negative index is negated into an offset from the end
and may not exceed the size; then the source resizes to absoluteIndex + 1
whenever absoluteIndex <= mElements.size() and returns the element at
absoluteIndex by unchecked std::vector::operator[].  Returns the updated
value together with the accessed element. -/
def JsonValue.indexIntMut (v : JsonValue) (index : Int) :
    Except JsonErr (JsonValue × JsonValue) :=
  if v.mType ≠ .array then .error .typeMismatch
  else
    let elems := v.mElements
    let absRes : Except JsonErr Nat :=
      if index < 0 then
        if elems.length < (-index).toNat then .error .outOfRange
        else .ok (elems.length - (-index).toNat)
      else .ok index.toNat
    match absRes with
    | .error e => .error e
    | .ok absoluteIndex =>
      let elems2 :=
        if absoluteIndex ≤ elems.length then resizeTo elems (absoluteIndex + 1)
        else elems
      match elems2[absoluteIndex]? with
      | some e => .ok (v.setElements elems2, e)
      | none => .error .undefinedBehavior

/-- Immutable JsonValue::operator[](IntegralType) const at a signed index:
throws on a non-array type; a negative index is negated into an offset from
the end and may not exceed the size; the element is then read with
std::vector::at, which throws std::out_of_range on any remaining
out-of-bounds index. -/
def JsonValue.indexIntConst (v : JsonValue) (index : Int) :
    Except JsonErr JsonValue :=
  if v.mType ≠ .array then .error .typeMismatch
  else
    let elems := v.mElements
    let absRes : Except JsonErr Nat :=
      if index < 0 then
        if elems.length < (-index).toNat then .error .outOfRange
        else .ok (elems.length - (-index).toNat)
      else .ok index.toNat
    match absRes with
    | .error e => .error e
    | .ok absoluteIndex =>
      match elems[absoluteIndex]? with
      | some e => .ok e
      | none => .error .outOfRange

/-- Mutable JsonValue::operator[](const std::string&): throws on a
non-array type; otherwise std::map::operator[], which inserts a
default-constructed (undefined) member when the key is absent.  Returns the
updated value together with the accessed member. -/
def JsonValue.indexKeyMut (v : JsonValue) (key : String) :
    Except JsonErr (JsonValue × JsonValue) :=
  if v.mType ≠ .object then .error .typeMismatch
  else
    let r := mapIndex v.mMembers key
    .ok (v.setMembers r.1, r.2)

/-- Immutable JsonValue::operator[](const std::string&) const: throws on a
non-object type; otherwise std::map::at, which throws std::out_of_range
when the key is absent. -/
def JsonValue.indexKeyConst (v : JsonValue) (key : String) :
    Except JsonErr JsonValue :=
  if v.mType ≠ .object then .error .typeMismatch
  else
    match memFind v.mMembers key with
    | some e => .ok e
    | none => .error .outOfRange

/-- The payload-cleanliness invariant of the specification: every payload
member not selected by the active mType is in its default state. -/
def payloadClean (v : JsonValue) : Bool :=
  (v.mType == .string || v.mStringValue.isEmpty) &&
  (v.mType == .array || v.mElements.isEmpty) &&
  (v.mType == .object || v.mMembers.isEmpty) &&
  (v.mType == .boolean || v.mBoolean == false) &&
  (v.mType == .number || (v.mNumericType == .NONE && v.mNumericValue == 0))

/-- JsonValue::ParseSource over a std::string source (the string-source
variant; the FILE and ifstream variants are external collaborators).  The
source text is kept as its character list.  mLastReadPosition, which the
source writes inside peek only to feed the (never defined) ParseError
diagnostics, is not observable and is omitted from the state. -/
structure ParseSource where
  src : List Char
  mCurrentReadPosition : Nat
deriving DecidableEq

/-- Build a ParseSource from a std::string, starting at read position 0. -/
def ParseSource.ofString (s : String) : ParseSource := ⟨s.data, 0⟩

/-- ParseSource::endOfSource for the string source: the current read
position equals the source length. -/
def ParseSource.endOfSource (s : ParseSource) : Bool :=
  s.mCurrentReadPosition == s.src.length

/-- ParseSource::peek: the null character at end-of-source or past the
source end; the character at currentPosition + offset otherwise.  Reading
the std::string at exactly its length yields the null terminator. -/
def ParseSource.peek (s : ParseSource) (offset : Nat) : Char :=
  if s.endOfSource then '\x00'
  else if s.src.length < s.mCurrentReadPosition + offset then '\x00'
  else s.src.getD (s.mCurrentReadPosition + offset) '\x00'

/-- ParseSource::strncmp: returns false at end-of-source, and the body then
unconditionally returns false as well (the comparison is unimplemented in
the source). -/
def ParseSource.strncmpSrc (s : ParseSource) (_string : List Char) (_length : Nat) :
    Bool :=
  if s.endOfSource then false else false

/-- ParseSource::update: returns at end-of-source; the positive-offset
branch has an empty body, so the read position is never changed. -/
def ParseSource.update (s : ParseSource) (offset : Nat) : ParseSource :=
  if s.endOfSource then s
  else if 0 < offset then s
  else s

/-- ParseSource::copy: the body is empty, so the destination string is left
unchanged. -/
def ParseSource.copySrc (_s : ParseSource) (destination : String) (_length : Nat) :
    String :=
  destination

/-- Parse failures.  parseFail carries the failing rule name handed to the
ParseError constructor (the ParseError class itself is referenced but never
defined in the source).  fuelExhausted marks a loop of the C++ parser that
does not terminate because the cursor never advances. -/
inductive PErr where
  | parseFail (rule : String)
  | fuelExhausted
deriving DecidableEq

/-- Rule-name string handed to ParseError by _parseValue. -/
def ruleParseValue : String := "parseValue"

/-- Rule-name string handed to ParseError by _parseString. -/
def ruleParseString : String := "parseString"

/-- Rule-name string handed to ParseError by _parseArray. -/
def ruleParseArray : String := "parseArray"

/-- Rule-name string handed to ParseError by _parseObject. -/
def ruleParseObject : String := "parseObject"

/-- The whitespace test of _parseWhitespace: strchr over the four-character
whitespace set; strchr also matches the null terminator itself, so a null
peek result counts as a hit. -/
def isWhitespaceHit (c : Char) : Bool :=
  [' ', '\r', '\n', '\t'].contains c || c == '\x00'

/-- The escape-character test of _parseString: strchr over the escape set;
strchr also matches the null terminator itself. -/
def isEscapeHit (c : Char) : Bool :=
  ['"', '\\', '/', 'b', 'f', 'n', 'r', 't', 'u'].contains c || c == '\x00'

/-- The isxdigit test used by _parseString for unicode escapes. -/
def isHexDigitChar (c : Char) : Bool :=
  c.isDigit || (decide ('a' ≤ c) && decide (c ≤ 'f')) ||
    (decide ('A' ≤ c) && decide (c ≤ 'F'))

/-- JsonValue::_parseWhitespace: skip characters of the whitespace set.
Fuel bounds the loop, which in the source cannot terminate on a whitespace
hit because update never advances. -/
def parseWhitespace : Nat → ParseSource → Except PErr ParseSource
  | 0, _ => .error .fuelExhausted
  | fuel + 1, s =>
    if (!s.endOfSource) && isWhitespaceHit (s.peek 0) then
      parseWhitespace fuel (s.update 1)
    else .ok s

/-- The scanning loop of JsonValue::_parseString: advances a length counter
over the escaped string body until the closing quote, validating escape
sequences and rejecting raw control characters. -/
def parseStringScan : Nat → ParseSource → Nat → Except PErr Nat
  | 0, _, _ => .error .fuelExhausted
  | fuel + 1, s, stringLength =>
    if (!s.endOfSource) && !(s.peek stringLength == '"') then
      if s.peek stringLength == '\\' then
        let lengthAtEscape := stringLength + 1
        if !isEscapeHit (s.peek lengthAtEscape) then
          .error (.parseFail ruleParseString)
        else if s.peek lengthAtEscape == 'u' then
          if isHexDigitChar (s.peek (lengthAtEscape + 1)) &&
              isHexDigitChar (s.peek (lengthAtEscape + 2)) &&
              isHexDigitChar (s.peek (lengthAtEscape + 3)) &&
              isHexDigitChar (s.peek (lengthAtEscape + 4)) then
            parseStringScan fuel s (lengthAtEscape + 5)
          else .error (.parseFail ruleParseString)
        else parseStringScan fuel s (lengthAtEscape + 1)
      else if decide ('\x00' ≤ s.peek stringLength) &&
          decide (s.peek stringLength < ' ') then
        .error (.parseFail ruleParseString)
      else parseStringScan fuel s (stringLength + 1)
    else .ok stringLength

/-- JsonValue::_parseString: requires a leading quote, scans the string
body, requires the closing quote, copies the scanned span into mStringValue
(a no-op, since ParseSource::copy is empty), advances past the closing
quote (a no-op) and sets mType to string. -/
def parseStringRule (fuel : Nat) (v : JsonValue) (s : ParseSource) :
    Except PErr (JsonValue × ParseSource) :=
  if !(s.peek 0 == '"') then .error (.parseFail ruleParseString)
  else
    let s1 := s.update 1
    match parseStringScan fuel s1 0 with
    | .error e => .error e
    | .ok stringLength =>
      if !(s1.peek stringLength == '"') then .error (.parseFail ruleParseString)
      else
        let copied := ParseSource.copySrc s1 v.mStringValue stringLength
        let s2 := s1.update (stringLength + 1)
        .ok ((v.setStringValue copied).setType .string, s2)

/-- JsonValue::_parseNumber: the body is the single comment TODO Implement,
so the value and the source are returned unchanged. -/
def parseNumberRule (v : JsonValue) (s : ParseSource) :
    Except PErr (JsonValue × ParseSource) :=
  .ok (v, s)

/-- The text rendered for an Array payload by operator std::string for an
object-kind value. -/
def strObjectObject : String := "[object Object]"

/-- The true literal. -/
def strTrue : String := "true"

/-- The false literal. -/
def strFalse : String := "false"

/-- The null literal. -/
def strNull : String := "null"

/-- A comma, the array-element joiner of operator std::string. -/
def strComma : String := ","

/-- Text conversion of a long double payload.  Decimal rendering of
floating-point storage is outside this integer embedding; no claim below
depends on a FLOATING cell, so the conversion is left as the empty
string. -/
def floatingText (_bits : Nat) : String := emptyString

mutual

/-- JsonValue::operator std::string: object renders as a fixed tag, array
as its comma-joined recursively converted elements, string as mStringValue,
number by its resolution (std::to_string for the native resolutions; the
MULTIPLE_PRECISION and NONE resolutions have no case and leave the default
empty string), boolean as the two literals, null as its literal, and
undefined (no case) as the default empty string. -/
def jsonToString : JsonValue → String
  | .mk t nt nv s e _ b =>
    match t with
    | .object => strObjectObject
    | .array => jsonListToString e
    | .string => s
    | .number =>
      match nt with
      | .FLOATING => floatingText nv
      | .SIGNED_INTEGRAL => toString (signedRead nv)
      | .UNSIGNED_INTEGRAL => toString nv
      | _ => emptyString
    | .boolean => if b then strTrue else strFalse
    | .null => strNull
    | .undefined => emptyString

/-- Comma-joined conversion of mElements, as in the array case of
operator std::string: the first element plain, every further element
preceded by a comma. -/
def jsonListToString : List JsonValue → String
  | [] => emptyString
  | x :: rest => jsonListToStringTail (jsonToString x) rest

/-- Accumulating tail of the array conversion loop. -/
def jsonListToStringTail : String → List JsonValue → String
  | acc, [] => acc
  | acc, x :: rest => jsonListToStringTail (acc ++ strComma ++ jsonToString x) rest

end

/-- The character array STRING_TRUE of _parseValue. -/
def litTrue : List Char := ['t', 'r', 'u', 'e']

/-- The character array STRING_FALSE of _parseValue. -/
def litFalse : List Char := ['f', 'a', 'l', 's', 'e']

/-- The character array STRING_NULL of _parseValue. -/
def litNull : List Char := ['n', 'u', 'l', 'l']

mutual

/-- JsonValue::_parseValue: skip whitespace, dispatch on the lookahead
character (quote to _parseString, minus or digit to _parseNumber, brace to
_parseObject, bracket to _parseArray, then strncmp against the three
keyword literals, setting mType and mBoolean for a hit and advancing past
the literal), throw ParseError otherwise, then skip trailing whitespace.
Fuel bounds the recursion and the loops of the cursor-driven code. -/
def parseValueRule : Nat → JsonValue → ParseSource → Except PErr (JsonValue × ParseSource)
  | 0, _, _ => .error .fuelExhausted
  | fuel + 1, v, s => do
    let s ← parseWhitespace (fuel + 1) s
    let (v, s) ←
      if s.peek 0 == '"' then
        parseStringRule (fuel + 1) v s
      else if (s.peek 0 == '-') || (s.peek 0).isDigit then
        parseNumberRule v s
      else if s.peek 0 == '{' then
        parseObjectRule fuel v s
      else if s.peek 0 == '[' then
        parseArrayRule fuel v s
      else if s.strncmpSrc litTrue litTrue.length then
        pure ((v.setType .boolean).setBoolean true, s.update litTrue.length)
      else if s.strncmpSrc litFalse litFalse.length then
        pure ((v.setType .boolean).setBoolean false, s.update litFalse.length)
      else if s.strncmpSrc litNull litNull.length then
        pure (v.setType .null, s.update litNull.length)
      else
        .error (.parseFail ruleParseValue)
    let s ← parseWhitespace (fuel + 1) s
    pure (v, s)

/-- JsonValue::_parseArray: requires the opening bracket, skips whitespace,
runs the element loop, then requires and consumes the closing bracket and
sets mType to array.  (On a missing closing bracket the source updates the
cursor before throwing; the update is unobservable past the throw.) -/
def parseArrayRule : Nat → JsonValue → ParseSource → Except PErr (JsonValue × ParseSource)
  | 0, _, _ => .error .fuelExhausted
  | fuel + 1, v, s =>
    if !(s.peek 0 == '[') then .error (.parseFail ruleParseArray)
    else do
      let s ← parseWhitespace fuel (s.update 1)
      let (v, s) ← parseArrayLoop fuel v s
      if !(s.peek 0 == ']') then .error (.parseFail ruleParseArray)
      else pure (v.setType .array, s.update 1)

/-- The element loop of _parseArray: while not at end-of-source and the
lookahead is not the closing bracket, push_back the value built by the
JsonValue(Type::undefined, source) constructor, then consume a comma or
require the closing bracket. -/
def parseArrayLoop : Nat → JsonValue → ParseSource → Except PErr (JsonValue × ParseSource)
  | 0, _, _ => .error .fuelExhausted
  | fuel + 1, v, s =>
    if (!s.endOfSource) && !(s.peek 0 == ']') then do
      let (element, s) ← parseTypedCtor fuel .undefined s
      let v := v.setElements (v.mElements ++ [element])
      if s.peek 0 == ',' then parseArrayLoop fuel v (s.update 1)
      else if !(s.peek 0 == ']') then .error (.parseFail ruleParseArray)
      else parseArrayLoop fuel v s
    else .ok (v, s)

/-- JsonValue::_parseObject: requires the opening brace, skips whitespace,
runs the member loop, then requires and consumes the closing brace and sets
mType to object. -/
def parseObjectRule : Nat → JsonValue → ParseSource → Except PErr (JsonValue × ParseSource)
  | 0, _, _ => .error .fuelExhausted
  | fuel + 1, v, s =>
    if !(s.peek 0 == '{') then .error (.parseFail ruleParseObject)
    else do
      let s ← parseWhitespace fuel (s.update 1)
      let (v, s) ← parseObjectLoop fuel v s
      if !(s.peek 0 == '}') then .error (.parseFail ruleParseObject)
      else pure (v.setType .object, s.update 1)

/-- The member loop of _parseObject: while not at end-of-source and the
lookahead is not the closing brace, build the key with the
JsonValue(Type::string, source) constructor, require and consume the colon,
build the member value with JsonValue(Type::undefined, source), store it
under the std::string conversion of the key (insert-or-overwrite), then
consume a comma or require the closing brace. -/
def parseObjectLoop : Nat → JsonValue → ParseSource → Except PErr (JsonValue × ParseSource)
  | 0, _, _ => .error .fuelExhausted
  | fuel + 1, v, s =>
    if (!s.endOfSource) && !(s.peek 0 == '}') then do
      let (key, s) ← parseTypedCtor fuel .string s
      if !(s.peek 0 == ':') then .error (.parseFail ruleParseObject)
      else do
        let (element, s) ← parseTypedCtor fuel .undefined (s.update 1)
        let v := v.setMembers (mapInsertAssign v.mMembers (jsonToString key) element)
        if s.peek 0 == ',' then parseObjectLoop fuel v (s.update 1)
        else if !(s.peek 0 == '}') then .error (.parseFail ruleParseObject)
        else parseObjectLoop fuel v s
    else .ok (v, s)

/-- Modelled from the spec: the parser calls a JsonValue(Type, ParseSource&)
constructor that is referenced but absent from the source.  Per the grammar
of the specification the constructed child is produced by the entry rule,
so the constructor is modelled as _initPrimitiveVariables followed by
_parseValue on the source. -/
def parseTypedCtor : Nat → JsonType → ParseSource → Except PErr (JsonValue × ParseSource)
  | 0, _, _ => .error .fuelExhausted
  | fuel + 1, type, s => parseValueRule fuel (initPrimitiveVariables type) s

end

/-- JsonValue::parse(const std::string&): clear this value, build the
string ParseSource and run _parseValue, with the stated fuel bounding the
cursor-driven loops. -/
def JsonValue.parse (v : JsonValue) (fuel : Nat) (jsonString : String) :
    Except PErr JsonValue :=
  match parseValueRule fuel (v.clear) (ParseSource.ofString jsonString) with
  | .error e => .error e
  | .ok (v2, _) => .ok v2

/-- A double-quote character as a string. -/
def strQuote : String := "\""

/-- A backslash character as a string. -/
def strBackslash : String := "\\"

/-- The opening brace of a serialized object. -/
def strLBrace : String := "\x7b"

/-- The closing brace of a serialized object. -/
def strRBrace : String := "\x7d"

/-- The opening bracket of a serialized array. -/
def strLBrack : String := "["

/-- The closing bracket of a serialized array. -/
def strRBrack : String := "]"

/-- The key-value separator of a serialized object member. -/
def strColon : String := ":"

/-- The rendering chosen for an unresolved numeric cell. -/
def strZero : String := "0"

/-- A hexadecimal digit character. -/
def hexDigitChar (n : Nat) : Char :=
  if n < 10 then Char.ofNat (48 + n) else Char.ofNat (87 + n)

/-- Four-hex-digit rendering of a code point, for unicode escapes. -/
def hex4 (n : Nat) : String :=
  String.mk [hexDigitChar (n / 4096 % 16), hexDigitChar (n / 256 % 16),
    hexDigitChar (n / 16 % 16), hexDigitChar (n % 16)]

/-- Modelled from the spec: the quote-escaping of the serializer (section
4.4), applied per character: quote and backslash are backslash-escaped, the
named control escapes are emitted for backspace, form feed, newline,
carriage return and tab, any other control character below 0x20 becomes a
unicode escape, and every other character is emitted as itself. -/
def escapeChar (c : Char) : String :=
  if c == '"' then strBackslash ++ strQuote
  else if c == '\\' then strBackslash ++ strBackslash
  else if c == '\x08' then strBackslash ++ String.mk ['b']
  else if c == '\x0c' then strBackslash ++ String.mk ['f']
  else if c == '\n' then strBackslash ++ String.mk ['n']
  else if c == '\r' then strBackslash ++ String.mk ['r']
  else if c == '\t' then strBackslash ++ String.mk ['t']
  else if c.toNat < 32 then strBackslash ++ String.mk ['u'] ++ hex4 c.toNat
  else String.mk [c]

/-- Quote-escaped rendering of a string payload. -/
def escapeString (s : String) : String :=
  String.join (s.data.map escapeChar)

mutual

/-- Modelled from the spec: JsonValue::stringify has an empty function body
in the source, so the dense (Indent::NONE) serializer is modelled from
section 4.4 of the specification: object renders as brace-wrapped
comma-joined quoted-key colon value pairs, array as bracket-wrapped
comma-joined values, string as its quote-escaped text in quotes, number by
its resolution, boolean and null as their literals, and undefined by the
recommended null substitution. -/
def stringifyDense : JsonValue → String
  | .mk t nt nv s e m b =>
    match t with
    | .object => strLBrace ++ stringifyMembers m ++ strRBrace
    | .array => strLBrack ++ stringifyElements e ++ strRBrack
    | .string => strQuote ++ escapeString s ++ strQuote
    | .number =>
      match nt with
      | .FLOATING => floatingText nv
      | .SIGNED_INTEGRAL => toString (signedRead nv)
      | .UNSIGNED_INTEGRAL => toString nv
      | _ => strZero
    | .boolean => if b then strTrue else strFalse
    | .null => strNull
    | .undefined => strNull

/-- Comma-joined dense rendering of the elements of an array. -/
def stringifyElements : List JsonValue → String
  | [] => emptyString
  | x :: rest => stringifyElementsTail (stringifyDense x) rest

/-- Accumulating tail of the dense array rendering. -/
def stringifyElementsTail : String → List JsonValue → String
  | acc, [] => acc
  | acc, x :: rest => stringifyElementsTail (acc ++ strComma ++ stringifyDense x) rest

/-- Comma-joined dense rendering of the members of an object. -/
def stringifyMembers : List (String × JsonValue) → String
  | [] => emptyString
  | (k, x) :: rest =>
    stringifyMembersTail (strQuote ++ escapeString k ++ strQuote ++ strColon ++
      stringifyDense x) rest

/-- Accumulating tail of the dense object rendering. -/
def stringifyMembersTail : String → List (String × JsonValue) → String
  | acc, [] => acc
  | acc, (k, x) :: rest =>
    stringifyMembersTail (acc ++ strComma ++ strQuote ++ escapeString k ++ strQuote ++
      strColon ++ stringifyDense x) rest

end

/-- The boolean initialization constructor JsonValue(bool). -/
def jsonOfBool (boolean : Bool) : JsonValue :=
  (initPrimitiveVariables .boolean).setBoolean boolean

/-- The arithmetic initialization constructor at a signed integral type. -/
def jsonOfSigned (x : Int) : JsonValue :=
  (((initPrimitiveVariables .number).setNumericType .SIGNED_INTEGRAL).setNumericValue
    (toBits x))

/-- The arithmetic initialization constructor at an unsigned integral
type. -/
def jsonOfUnsigned (x : Nat) : JsonValue :=
  (((initPrimitiveVariables .number).setNumericType .UNSIGNED_INTEGRAL).setNumericValue
    (x % 2 ^ 64))

/-- The null initialization constructor JsonValue(nullptr). -/
def jsonNull : JsonValue := initPrimitiveVariables .null

/-- A one-character member key. -/
def keyA : String := "a"

/-- A one-character key absent from objA. -/
def keyB : String := "b"

/-- An object-kind value with the single member keyA mapped to null. -/
def objA : JsonValue := (initPrimitiveVariables .object).setMembers [(keyA, jsonNull)]

/-- An array-kind value with no elements. -/
def emptyArray : JsonValue := (initPrimitiveVariables .array).setElements []

/-- An array-kind value with two elements. -/
def arrTwo : JsonValue :=
  (initPrimitiveVariables .array).setElements [jsonOfBool true, jsonNull]

/-- If operator== answers true then the two mType tags agree: the type
comparison is the first check of the source comparison. -/
theorem jsonEq_mType {a b : JsonValue} (h : jsonEq a b = true) : a.mType = b.mType := by
  cases a with | mk t1 nt1 nv1 s1 e1 m1 b1 =>
  cases b with | mk t2 nt2 nv2 s2 e2 m2 b2 =>
  simp only [jsonEq] at h
  split at h
  · exact absurd h (by simp)
  · next hne =>
    simp only [ne_eq, not_not] at hne
    simpa [JsonValue.mType] using hne

/-- setMembers leaves mType unchanged. -/
theorem setMembers_mType (v : JsonValue) (m : List (String × JsonValue)) :
    (v.setMembers m).mType = v.mType := by cases v; rfl

/-- setMembers installs exactly the given member list. -/
theorem setMembers_mMembers (v : JsonValue) (m : List (String × JsonValue)) :
    (v.setMembers m).mMembers = m := by cases v; rfl

/-- std::map::operator[] on an absent key maps it to a default-constructed
value that a subsequent find retrieves. -/
theorem mapIndex_absent {m : List (String × JsonValue)} {k : String}
    (h : memFind m k = none) :
    (mapIndex m k).2 = defaultJsonValue ∧
      memFind (mapIndex m k).1 k = some defaultJsonValue := by
  induction m with
  | nil => simp [mapIndex, memFind]
  | cons hd tl ih =>
    obtain ⟨k1, v1⟩ := hd
    rw [memFind] at h
    split at h
    · exact absurd h (by simp)
    · next hne =>
      by_cases hlt : k < k1
      · simp [mapIndex, hlt, memFind]
      · have := ih h
        simp [mapIndex, hlt, hne, memFind, this.1, this.2]

/-- C1: the claim that parsing the dense serialization of a Value yields an
equal Value fails on the source code: for the Boolean value true the dense
serialization (modelled from the spec, since stringify has an empty body)
is the literal true, and the source parse of that text throws
ParseError(parseValue), because ParseSource::strncmp always answers false,
so the literal dispatch never matches. -/
theorem c1_roundtrip_code_bug :
    stringifyDense (jsonOfBool true) = strTrue ∧
    defaultJsonValue.parse 100 (stringifyDense (jsonOfBool true)) =
      .error (.parseFail ruleParseValue) := ⟨rfl, rfl⟩

/-- C2 counterexample: the claim that Number values of differing resolution
always compare unequal is false on the source code: SignedIntegral 5 and
UnsignedIntegral 5 have different resolutions yet operator== answers true,
because the comparison never inspects the right operand resolution and both
cells store the same raw union pattern. -/
theorem c2_mixed_resolution_equality_counterexample :
    jsonEq (jsonOfSigned 5) (jsonOfUnsigned 5) = true ∧
    (jsonOfSigned 5).mNumericType ≠ (jsonOfUnsigned 5).mNumericType :=
  ⟨rfl, by decide⟩

/-- C2 amended: for two Number values whose left operand resolution is
SignedIntegral or UnsignedIntegral, operator== compares the raw stored
union patterns through the left operand resolution and ignores the right
operand resolution entirely: the result is exactly the equality of the two
stored patterns, whatever the right operand resolution is. -/
theorem c2_amended_resolution_blind_equality (a b : JsonValue)
    (ha : a.mType = JsonType.number) (hb : b.mType = JsonType.number)
    (hres : a.mNumericType = eNumberType.SIGNED_INTEGRAL ∨
      a.mNumericType = eNumberType.UNSIGNED_INTEGRAL)
    (hva : a.mNumericValue < 2 ^ 64) (hvb : b.mNumericValue < 2 ^ 64) :
    jsonEq a b = (a.mNumericValue == b.mNumericValue) := by
  cases a with | mk t1 nt1 nv1 s1 e1 m1 b1 =>
  cases b with | mk t2 nt2 nv2 s2 e2 m2 b2 =>
  simp only [JsonValue.mType] at ha hb
  simp only [JsonValue.mNumericType] at hres
  simp only [JsonValue.mNumericValue] at hva hvb ⊢
  subst ha hb
  rcases hres with h | h <;> subst h
  · simp only [jsonEq]
    rw [if_neg (by simp)]
    by_cases hnv : nv1 = nv2
    · subst hnv; simp
    · have h2 : signedRead nv1 ≠ signedRead nv2 := by
        simp only [signedRead]
        split_ifs <;> omega
      simp [hnv, h2]
  · simp only [jsonEq]
    rw [if_neg (by simp)]

/-- C2 amended, witness: the amended equality evaluated at SignedIntegral 5
against UnsignedIntegral 7. -/
theorem c2_amended_resolution_blind_equality_witness :
    jsonEq (jsonOfSigned 5) (jsonOfUnsigned 7) =
      ((jsonOfSigned 5).mNumericValue == (jsonOfUnsigned 7).mNumericValue) :=
  c2_amended_resolution_blind_equality (jsonOfSigned 5) (jsonOfUnsigned 7) rfl rfl
    (Or.inl rfl) (by decide) (by decide)

/-- C3: the claim that mutable indexed access beyond the current size grows
the array up to the requested index fails on the source code: on an empty
array, mutable index 1 skips the resize (the guard only fires for indices
at most the current size) and performs an out-of-bounds vector access,
which is undefined behaviour, instead of growing the array to size 2; the
immutable access at the same index does fail with out_of_range as the
claim states. -/
theorem c3_mutable_growth_code_bug :
    emptyArray.mType = JsonType.array ∧
    emptyArray.mElements.length = 0 ∧
    emptyArray.indexIntMut 1 = .error .undefinedBehavior ∧
    emptyArray.indexIntConst 1 = .error .outOfRange := ⟨rfl, rfl, rfl, rfl⟩

/-- C4: negative indexing on an array of length N: for a negative index
with magnitude k between 1 and N, both the mutable and the immutable access
return the element stored at position N - k, and for magnitude above N both
fail with out_of_range before any mutation. -/
theorem c4_negative_indexing (v : JsonValue) (k : Nat)
    (harr : v.mType = JsonType.array) :
    (1 ≤ k → k ≤ v.mElements.length →
      ∃ v2 e, v.indexIntMut (-(k : Int)) = .ok (v2, e) ∧
        v.mElements[v.mElements.length - k]? = some e ∧
        v.indexIntConst (-(k : Int)) = .ok e) ∧
    (v.mElements.length < k →
      v.indexIntMut (-(k : Int)) = .error .outOfRange ∧
      v.indexIntConst (-(k : Int)) = .error .outOfRange) := by
  have htn : (-(-(k : Int))).toNat = k := by omega
  constructor
  · intro h1 hk
    have hneg : (-(k : Int)) < 0 := by omega
    have hidx : v.mElements.length - k < v.mElements.length := by omega
    obtain ⟨e, he⟩ : ∃ e, v.mElements[v.mElements.length - k]? = some e := by
      rw [List.getElem?_eq_getElem hidx]
      exact ⟨_, rfl⟩
    refine ⟨v.setElements (resizeTo v.mElements (v.mElements.length - k + 1)), e,
      ?_, he, ?_⟩
    · rw [JsonValue.indexIntMut, if_neg (by simp [harr])]
      simp only [if_pos hneg, htn,
        if_neg (show ¬ v.mElements.length < k by omega),
        if_pos (show v.mElements.length - k ≤ v.mElements.length by omega)]
      have htake : resizeTo v.mElements (v.mElements.length - k + 1) =
          v.mElements.take (v.mElements.length - k + 1) := by
        rw [resizeTo, if_pos (by omega)]
      rw [htake, List.getElem?_take_of_lt (by omega), he, ← htake]
    · rw [JsonValue.indexIntConst, if_neg (by simp [harr])]
      simp only [if_pos hneg, htn,
        if_neg (show ¬ v.mElements.length < k by omega)]
      rw [he]
  · intro hlt
    have hneg : (-(k : Int)) < 0 := by omega
    constructor
    · rw [JsonValue.indexIntMut, if_neg (by simp [harr])]
      simp only [if_pos hneg, htn, if_pos hlt]
    · rw [JsonValue.indexIntConst, if_neg (by simp [harr])]
      simp only [if_pos hneg, htn, if_pos hlt]

/-- C4 witness: the negative-indexing theorem evaluated on a two-element
array at index -1 (in range) and index -3 (out of range). -/
theorem c4_negative_indexing_witness :
    (∃ v2 e, arrTwo.indexIntMut (-((1 : Nat) : Int)) = .ok (v2, e) ∧
      arrTwo.mElements[arrTwo.mElements.length - 1]? = some e ∧
      arrTwo.indexIntConst (-((1 : Nat) : Int)) = .ok e) ∧
    (arrTwo.indexIntMut (-((3 : Nat) : Int)) = .error .outOfRange ∧
      arrTwo.indexIntConst (-((3 : Nat) : Int)) = .error .outOfRange) :=
  ⟨(c4_negative_indexing arrTwo 1 rfl).1 (by decide) (by decide),
   (c4_negative_indexing arrTwo 3 rfl).2 (by decide)⟩

/-- C5: after every assignment operator the value has the newly assigned
kind and no payload of the prior kind is observable: the direct assignment
operators (object, array, string, signed, unsigned, floating, boolean,
null) leave every non-active payload member default and size reflects only
the new payload; the copy and the move assignment preserve the property
whenever both operands satisfy it, and give the value the kind of the
assigned source. -/
theorem c5_kind_invariant (v w : JsonValue) (object : List (String × JsonValue))
    (array : List JsonValue) (string : String) (x : Int) (n : Nat) (fb : Nat)
    (b : Bool) :
    ((v.assignObject object).mType = JsonType.object ∧
      payloadClean (v.assignObject object) = true ∧
      (v.assignObject object).size = .ok object.length) ∧
    ((v.assignArray array).mType = JsonType.array ∧
      payloadClean (v.assignArray array) = true ∧
      (v.assignArray array).size = .ok array.length) ∧
    ((v.assignString string).mType = JsonType.string ∧
      payloadClean (v.assignString string) = true ∧
      (v.assignString string).size = .ok string.length) ∧
    ((v.assignSigned x).mType = JsonType.number ∧
      payloadClean (v.assignSigned x) = true) ∧
    ((v.assignUnsigned n).mType = JsonType.number ∧
      payloadClean (v.assignUnsigned n) = true) ∧
    ((v.assignFloating fb).mType = JsonType.number ∧
      payloadClean (v.assignFloating fb) = true) ∧
    ((v.assignBool b).mType = JsonType.boolean ∧
      payloadClean (v.assignBool b) = true) ∧
    ((v.assignNull).mType = JsonType.null ∧ payloadClean v.assignNull = true) ∧
    (payloadClean v = true → payloadClean w = true →
      (v.assignCopy w).mType = w.mType ∧ payloadClean (v.assignCopy w) = true) ∧
    (payloadClean v = true → payloadClean w = true →
      (v.assignMove w).1.mType = w.mType ∧ payloadClean (v.assignMove w).1 = true) := by
  refine ⟨⟨rfl, rfl, rfl⟩, ⟨rfl, rfl, rfl⟩, ⟨rfl, rfl, rfl⟩, ⟨rfl, rfl⟩, ⟨rfl, rfl⟩,
    ⟨rfl, rfl⟩, ⟨rfl, rfl⟩, ⟨rfl, rfl⟩, ?_, ?_⟩
  · intro hv hw
    rw [JsonValue.assignCopy]
    by_cases he : jsonEq v w = true
    · rw [if_pos he]
      exact ⟨jsonEq_mType he, hv⟩
    · rw [if_neg he]
      cases w with | mk t nt nv s e m b2 =>
      refine ⟨rfl, ?_⟩
      simp only [payloadClean, copyAssignFields, JsonValue.mType, JsonValue.mStringValue,
        JsonValue.mElements, JsonValue.mMembers, JsonValue.mBoolean, JsonValue.mNumericType,
        JsonValue.mNumericValue, Bool.and_eq_true, Bool.or_eq_true, beq_iff_eq] at hw ⊢
      obtain ⟨⟨⟨⟨h1, h2⟩, h3⟩, h4⟩, h5⟩ := hw
      refine ⟨⟨⟨⟨h1, h2⟩, h3⟩, h4⟩, ?_⟩
      rcases h5 with h5 | h5
      · exact Or.inl h5
      · obtain ⟨hn, hv0⟩ := h5
        subst hn
        exact Or.inr ⟨rfl, rfl⟩
  · intro hv hw
    rw [JsonValue.assignMove]
    by_cases he : jsonEq v w = true
    · rw [if_pos he]
      exact ⟨jsonEq_mType he, hv⟩
    · rw [if_neg he]
      cases w with | mk t nt nv s e m b2 =>
      exact ⟨rfl, hw⟩

/-- C5 witness: the kind invariant evaluated with a boolean destination and
a null source for the copy and the move assignment. -/
theorem c5_kind_invariant_witness :
    payloadClean (jsonOfBool true) = true ∧ payloadClean jsonNull = true ∧
    (((jsonOfBool true).assignCopy jsonNull).mType = jsonNull.mType ∧
      payloadClean ((jsonOfBool true).assignCopy jsonNull) = true) ∧
    (((jsonOfBool true).assignMove jsonNull).1.mType = jsonNull.mType ∧
      payloadClean ((jsonOfBool true).assignMove jsonNull).1 = true) :=
  ⟨rfl, rfl,
   (c5_kind_invariant (jsonOfBool true) jsonNull [] [] emptyString 0 0 0
      false).2.2.2.2.2.2.2.2.1 rfl rfl,
   (c5_kind_invariant (jsonOfBool true) jsonNull [] [] emptyString 0 0 0
      false).2.2.2.2.2.2.2.2.2 rfl rfl⟩

/-- C6: the claim that keys() returns exactly one entry per member fails on
the source code: on an object with one member the returned vector holds two
entries, a default-constructed empty string (from the sizing constructor)
followed by the member key (appended through the back inserter); on a
non-object value keys() does fail with the type-mismatch error as the claim
states. -/
theorem c6_keys_code_bug :
    objA.mMembers.length = 1 ∧
    objA.keys = .ok [emptyString, keyA] ∧
    (jsonOfBool true).keys = .error .typeMismatch := ⟨rfl, rfl, rfl⟩

/-- C7: clear never fails (it is a total function) and resets every value
to the default-constructed state: kind undefined and every payload member
default. -/
theorem c7_clear_resets_to_default (v : JsonValue) :
    v.clear = defaultJsonValue ∧ (v.clear).mType = JsonType.undefined ∧
      payloadClean (v.clear) = true := ⟨rfl, rfl, rfl⟩

/-- C8: the claim that advance moves the read position forward fails on the
source code: on a fresh three-character source, which is not at
end-of-source, update(1) leaves the read position at 0 instead of 1, and in
fact update is the identity on every cursor state, because the
positive-offset branch of the source has an empty body. -/
theorem c8_advance_code_bug :
    (ParseSource.ofString strTrue).endOfSource = false ∧
    ((ParseSource.ofString strTrue).update 1).mCurrentReadPosition = 0 ∧
    ((ParseSource.ofString strTrue).update 1).mCurrentReadPosition ≠ 1 ∧
    ∀ (s : ParseSource) (n : Nat), s.update n = s :=
  ⟨rfl, rfl, by decide, fun s n => by
    unfold ParseSource.update
    split <;> simp⟩

/-- C9: on an object-kind value, mutable keyed access for an absent key
inserts a member whose value is kind undefined and returns it, so the key
is a member afterwards; on any non-object value the access fails with the
type-mismatch error. -/
theorem c9_autovivification (v : JsonValue) (k : String) :
    (v.mType = JsonType.object → v.hasMember k = false →
      ∃ v2 e, v.indexKeyMut k = .ok (v2, e) ∧ v2.hasMember k = true ∧
        e.mType = JsonType.undefined) ∧
    (v.mType ≠ JsonType.object → v.indexKeyMut k = .error .typeMismatch) := by
  constructor
  · intro hobj habs
    have hfind : memFind v.mMembers k = none := by
      rw [JsonValue.hasMember, if_pos hobj] at habs
      cases hmf : memFind v.mMembers k with
      | none => rfl
      | some x => rw [hmf] at habs; simp at habs
    obtain ⟨h2, hmem⟩ := mapIndex_absent hfind
    refine ⟨v.setMembers (mapIndex v.mMembers k).1, (mapIndex v.mMembers k).2,
      ?_, ?_, ?_⟩
    · rw [JsonValue.indexKeyMut, if_neg (by simp [hobj])]
    · rw [JsonValue.hasMember, if_pos (by rw [setMembers_mType]; exact hobj)]
      rw [setMembers_mMembers, hmem]
      rfl
    · rw [h2]; rfl
  · intro hne
    rw [JsonValue.indexKeyMut, if_pos hne]

/-- C9 witness: auto-vivification evaluated on a one-member object at an
absent key, and the type-mismatch failure on a boolean value. -/
theorem c9_autovivification_witness :
    (∃ v2 e, objA.indexKeyMut keyB = .ok (v2, e) ∧ v2.hasMember keyB = true ∧
      e.mType = JsonType.undefined) ∧
    (jsonOfBool true).indexKeyMut keyB = .error .typeMismatch :=
  ⟨(c9_autovivification objA keyB).1 rfl (by decide),
   (c9_autovivification (jsonOfBool true) keyB).2 (by decide)⟩

/-- C10 counterexample: the claim that every moved-from value is left in
the default undefined state fails on the source code for the move
assignment: when the two operands compare equal (two boolean true values)
the move assignment is skipped entirely and the source keeps kind boolean,
not undefined. -/
theorem c10_move_assign_equal_counterexample :
    ((jsonOfBool true).assignMove (jsonOfBool true)).2.mType = JsonType.boolean ∧
    JsonType.boolean ≠ JsonType.undefined := ⟨rfl, by decide⟩

/-- C10 amended: the move constructor always leaves its source in the
default undefined state and gives the destination the source contents; the
move assignment does the same whenever the operands compare unequal, and
leaves both operands unchanged when they compare equal. -/
theorem c10_amended_move_reset (v w : JsonValue) :
    moveConstruct w = (w, defaultJsonValue) ∧
    (jsonEq v w = false → v.assignMove w = (w, defaultJsonValue)) ∧
    (jsonEq v w = true → v.assignMove w = (v, w)) := by
  refine ⟨?_, ?_, ?_⟩
  · cases w; rfl
  · intro h
    rw [JsonValue.assignMove, if_neg (by simp [h])]
    cases w; rfl
  · intro h
    rw [JsonValue.assignMove, if_pos h]

/-- C10 amended, witness: the move constructor on a boolean value, and the
move assignment between a boolean destination and an unequal null
source. -/
theorem c10_amended_move_reset_witness :
    moveConstruct (jsonOfBool true) = (jsonOfBool true, defaultJsonValue) ∧
    (jsonOfBool true).assignMove jsonNull = (jsonNull, defaultJsonValue) :=
  ⟨(c10_amended_move_reset (jsonOfBool true) (jsonOfBool true)).1,
   (c10_amended_move_reset (jsonOfBool true) jsonNull).2.1 rfl⟩

end JsonHpp
